import Mathlib

/-!
Shallow embedding of `src/gabba_event_scraper.py` (the extraction →
date/time resolution → normalization → serialization pipeline) and proofs
about it.  Pure Python values are modelled by plain Lean data: Python
`datetime` values become a `Date`/`Time`/`PyDateTime` structure (the
`tzinfo` slot is an `Option Int` of offset minutes, `none` for naive
values), BeautifulSoup elements become records carrying exactly the texts
and markers the script reads, and per-event `try`/`except` recovery
becomes `Option`.
-/

/-- Calendar date (year, month, day), the date part of a Python `datetime`. -/
structure Date where
  year : Nat
  month : Nat
  day : Nat
deriving Repr, DecidableEq

/-- Lexicographic comparison of dates, as Python compares two `datetime`
values whose time parts coincide (both sides in the script are midnights). -/
def Date.lt (a b : Date) : Bool :=
  a.year < b.year ||
    (a.year = b.year && (a.month < b.month ||
      (a.month = b.month && a.day < b.day)))

/-- Time of day (hour, minute); the script never produces seconds. -/
structure Time where
  hour : Nat
  minute : Nat
deriving Repr, DecidableEq

/-- Model of a Python `datetime`: date, time of day and the `tzinfo`
offset in minutes east of UTC (`none` = naive, which is what
`dateutil.parser.parse` returns on the strings this script feeds it). -/
structure PyDateTime where
  date : Date
  time : Time
  offset : Option Int
deriving Repr, DecidableEq

/-- Left-pad a number below 100 to two digits, as `datetime.isoformat` does. -/
def pad2 (n : Nat) : String :=
  if n < 10 then "0" ++ toString n else toString n

/-- Left-pad a year to four digits, as `datetime.isoformat` does. -/
def pad4 (n : Nat) : String :=
  if n < 10 then "000" ++ toString n
  else if n < 100 then "00" ++ toString n
  else if n < 1000 then "0" ++ toString n
  else toString n

/-- Model of Python `datetime.isoformat()` on the naive, zero-second
values the script builds: `YYYY-MM-DDTHH:MM:SS`. -/
def PyDateTime.isoformat (dt : PyDateTime) : String :=
  pad4 dt.date.year ++ "-" ++ pad2 dt.date.month ++ "-" ++ pad2 dt.date.day ++
    "T" ++ pad2 dt.time.hour ++ ":" ++ pad2 dt.time.minute ++ ":00"

/-- Model of Python `str.strip()`: drop leading and trailing whitespace. -/
def pyStrip (s : String) : String :=
  String.mk (((s.data.dropWhile Char.isWhitespace).reverse.dropWhile
    Char.isWhitespace).reverse)

/-- Model of Python `str.lower()`. -/
def pyLower (s : String) : String :=
  String.mk (s.data.map Char.toLower)

/-- Model of Python `str.startswith(pat)`. -/
def pyStartsWith (s pat : String) : Bool :=
  pat.data.isPrefixOf s.data

/-- Model of the month-abbreviation recognition performed by
`dateutil.parser.parse` on strings such as `"22 Nov 2024"`;
unrecognisable months make the parse raise (here: `none`). -/
def parseMonth (s : String) : Option Nat :=
  match pyLower s with
  | "jan" => some 1
  | "feb" => some 2
  | "mar" => some 3
  | "apr" => some 4
  | "may" => some 5
  | "jun" => some 6
  | "jul" => some 7
  | "aug" => some 8
  | "sep" => some 9
  | "oct" => some 10
  | "nov" => some 11
  | "dec" => some 12
  | _ => none

/-- Digits-only string to number, models Python decimal parsing of short digit strings. -/
def digitsToNat (cs : List Char) : Option Nat :=
  if cs.isEmpty then none
  else if cs.all Char.isDigit then
    some (cs.foldl (fun n c => n * 10 + (c.toNat - 48)) 0)
  else none

/-- Model of `dateutil.parser.parse` applied to the script's
`f"{day_num} {month_str} {year}"` strings: the day must be a decimal
number in calendar range and the month a known abbreviation, otherwise
the call raises (here: `none`).  Month-length subtleties of the external
parser are not modelled; the page's real dates are always in range. -/
def parseDayMonth (dayStr monthStr : String) : Option (Nat × Nat) :=
  match digitsToNat dayStr.data, parseMonth monthStr with
  | some d, some m => if 1 ≤ d && d ≤ 31 then some (d, m) else none
  | _, _ => none

/-- Date Resolver, lines 145-152 of the script: build the candidate with
the reference instant's year, then rebuild with `year + 1` exactly when
the candidate (at midnight) compares below the reference day's midnight
AND the reference instant's month is January.  `now` is the date part of
`datetime.now()`; its time of day is irrelevant because both sides of the
comparison are midnights. -/
def resolveDate (now : Date) (dayNum : Nat) (month : Nat) : Date :=
  let candidate : Date := ⟨now.year, month, dayNum⟩
  if Date.lt candidate ⟨now.year, now.month, now.day⟩ && now.month = 1 then
    ⟨now.year + 1, month, dayNum⟩
  else
    candidate

/-- Split a character list at its first colon. -/
def splitAtColon : List Char → Option (List Char × List Char)
  | [] => none
  | c :: rest =>
    if c = ':' then some ([], rest)
    else
      match splitAtColon rest with
      | some (a, b) => some (c :: a, b)
      | none => none

/-- Model of `dateutil.parser.parse` applied to the page's time-of-day
values, shaped like `"1:30pm"` (case-insensitive am/pm marker, or a bare
24-hour `"H:MM"`).  Values outside this grammar - such as the sentinel
`"TBC"` - make the call raise `ValueError` (here: `none`). -/
def parseTimeOfDay (s : String) : Option Time :=
  let cs := (pyLower (pyStrip s)).data
  let n := cs.length
  let tail2 := cs.drop (n - 2)
  let core := if tail2 = ['p', 'm'] || tail2 = ['a', 'm'] then cs.take (n - 2) else cs
  let mer : Option Bool :=
    if tail2 = ['p', 'm'] then some true
    else if tail2 = ['a', 'm'] then some false
    else none
  match splitAtColon core with
  | none => none
  | some (hcs, mcs) =>
    match digitsToNat hcs, digitsToNat mcs with
    | some h, some m =>
      if m ≤ 59 then
        match mer with
        | some true => if 1 ≤ h && h ≤ 12 then some ⟨if h = 12 then 12 else h + 12, m⟩ else none
        | some false => if 1 ≤ h && h ≤ 12 then some ⟨if h = 12 then 0 else h, m⟩ else none
        | none => if h ≤ 23 then some ⟨h, m⟩ else none
      else none
    | _, _ => none

/-- One `div` inside the date sub-block: its stripped text plus whether
its rendering is hidden (a `display:none`-style marker).  The marker is
carried so that claims about visibility filtering can be stated; the
script itself never inspects it. -/
structure DateDiv where
  text : String
  hidden : Bool
deriving Repr, DecidableEq

/-- One candidate event container matched by
`a[href^="/events/"][target="_self"]`, carrying exactly what the script
reads from it: the optional `h3.text-h4` title text, the `href`
attribute, the `div`s of the optional `div.top-4.absolute.left-0` date
sub-block (in document order), and for each `div.text-h6` time row the
texts of its `span` children (in document order). -/
structure EventBlock where
  title : Option String
  href : String
  dateBlock : Option (List DateDiv)
  timeRows : List (List String)
deriving Repr, DecidableEq

/-- Date fragments the script works from, line 139:
`date_block.find_all('div') if date_block else []` - all nested `div`s,
with no visibility filtering. -/
def dateParts (block : EventBlock) : List DateDiv :=
  match block.dateBlock with
  | some divs => divs
  | none => []

/-- A labelled time pair (value, label), e.g. `("1:30pm", "Gates open")`. -/
structure TimePair where
  value : String
  label : String
deriving Repr, DecidableEq

/-- Lines 164-167: a time row contributes only when it has exactly two
spans; the first span's stripped text is the value, the second the label. -/
def pairOfRow : List String → Option TimePair
  | [v, l] => some ⟨pyStrip v, pyStrip l⟩
  | _ => none

/-- The `"value - label"` description line built on line 168. -/
def fmtPair (p : TimePair) : String :=
  p.value ++ " - " ++ p.label

/-- Python truthiness test `not start_time_str`: true for `None` and for
the empty string. -/
def pyFalsy : Option String → Bool
  | none => true
  | some s => s = ""

/-- The loop of lines 163-172 over the time rows, accumulating the
description lines and the `start_time_str` variable: rows that are not
two-span pairs are skipped; each pair appends one description line; the
value is recorded as start time when `start_time_str` is still falsy and
the value is not `"TBC"`. -/
def processTimeRowsAux (acc : List String × Option String) :
    List (List String) → List String × Option String
  | [] => acc
  | row :: rest =>
    match pairOfRow row with
    | some p =>
      processTimeRowsAux
        (acc.1 ++ [fmtPair p],
          if pyFalsy acc.2 && p.value ≠ "TBC" then some p.value else acc.2)
        rest
    | none => processTimeRowsAux acc rest

/-- Description lines and raw `start_time_str` after the loop of
lines 163-172, started from `[]` and `None`. -/
def processTimeRows (rows : List (List String)) : List String × Option String :=
  processTimeRowsAux ([], none) rows

/-- The start-time value that survives the truthiness test
`if start_time_str:` on line 177: `none` when the loop left the variable
`None` or the empty string. -/
def chosenStart (rows : List (List String)) : Option String :=
  match (processTimeRows rows).2 with
  | some s => if s = "" then none else some s
  | none => none

/-- One event dictionary appended on lines 188-194. -/
structure ScrapedEvent where
  title : String
  start_datetime : PyDateTime
  is_all_day : Bool
  description : String
  url : String
deriving Repr, DecidableEq

/-- Lines 126-194, one iteration of the per-event loop: `none` models the
`continue` on a short date block and the `except` swallowing a per-event
parse error.  The title defaults to `"Unknown Event"`; relative hrefs are
prefixed with the site origin; the first three date `div`s are read
positionally (weekday text unused); the resolved date and the selected
start time are combined, falling back to an all-day event when no usable
time exists or its parse raises. -/
def scrapeEvent (now : Date) (block : EventBlock) : Option ScrapedEvent :=
  let title :=
    match block.title with
    | some t => pyStrip t
    | none => "Unknown Event"
  let url :=
    if pyStartsWith block.href "http" then block.href
    else "https://thegabba.com.au" ++ block.href
  match dateParts block with
  | _ :: d1 :: d2 :: _ =>
    match parseDayMonth (pyStrip d1.text) (pyStrip d2.text) with
    | some dm =>
      let resolved := resolveDate now dm.1 dm.2
      let description := String.intercalate "\n" (processTimeRows block.timeRows).1
      let startTime : Option Time :=
        match chosenStart block.timeRows with
        | some s => parseTimeOfDay s
        | none => none
      match startTime with
      | some t =>
        some ⟨title, ⟨resolved, t, none⟩, false, description, url⟩
      | none =>
        some ⟨title, ⟨resolved, ⟨0, 0⟩, none⟩, true, description, url⟩
    | none => none
  | _ => none

/-- Lines 104-202, `scrape_gabba_events` applied to the blocks matched by
the container selector: each block is parsed independently; failed blocks
are dropped and parsing continues. -/
def scrape_gabba_events (now : Date) (blocks : List EventBlock) : List ScrapedEvent :=
  blocks.filterMap (scrapeEvent now)

/-- One VEVENT as assembled on lines 217-234: the field values the script
passes to `icalendar`, with the `TZID` parameter attached to `dtstart`
recorded alongside its (unconverted) local value. -/
structure ICalEntry where
  summary : String
  dtstart : PyDateTime
  dtstartTZID : String
  dtend : Option PyDateTime
  dtstamp : PyDateTime
  location : String
  description : String
  url : String
  uid : String
deriving Repr, DecidableEq

/-- The fixed location string of line 229. -/
def gabbaLocation : String :=
  "The Gabba, Vulture St, Woolloongabba QLD 4102"

/-- Lines 217-234, serialization of one event.  For a timed event the
script evaluates `event['start_datetime'] + timedelta(hours=2)` on
line 226, but only `datetime` is imported from the `datetime` module
(line 4), so the name lookup raises `NameError` and the whole run
crashes; the error value models that uncaught exception.  All-day events
serialize fully: naive `dtstart` tagged with a `TZID` parameter, no
`dtend`, the supplied generation stamp, description footer and the
UID `isoformat + "@" + url` of line 232. -/
def serializeEvent (stamp : PyDateTime) (ev : ScrapedEvent) : Except String ICalEntry :=
  if ev.is_all_day then
    Except.ok
      { summary := ev.title
        dtstart := ev.start_datetime
        dtstartTZID := "Australia/Brisbane"
        dtend := none
        dtstamp := stamp
        location := gabbaLocation
        description := ev.description ++ "\n\nMore info: " ++ ev.url
        url := ev.url
        uid := ev.start_datetime.isoformat ++ "@" ++ ev.url }
  else
    Except.error "NameError: name 'timedelta' is not defined"

/-- Lines 204-234, `create_ical_file` over the event list: the per-event
loop has no exception handler, so the first `NameError` aborts the whole
serialization and no calendar is produced. -/
def create_ical_file (stamp : PyDateTime) (events : List ScrapedEvent) :
    Except String (List ICalEntry) :=
  events.mapM (serializeEvent stamp)

/-- Outcome of one run of the `__main__` block: either a calendar
document was produced, or the process ended on a fatal path (a
`sys.exit(1)` or an uncaught exception) with no calendar written. -/
inductive PipelineOutcome where
  | success (cal : List ICalEntry)
  | fatal
deriving Repr, DecidableEq

/-- Lines 248-277, the `__main__` control flow over the core pipeline:
`none` input models the rendering layer returning no document (exit 1);
an empty scrape result exits 1 without touching the serializer; a
serializer exception ends the run with no calendar. -/
def runMain (now : Date) (stamp : PyDateTime) (doc : Option (List EventBlock)) :
    PipelineOutcome :=
  match doc with
  | none => PipelineOutcome.fatal
  | some blocks =>
    let events := scrape_gabba_events now blocks
    if events.isEmpty then PipelineOutcome.fatal
    else
      match create_ical_file stamp events with
      | Except.ok cal => PipelineOutcome.success cal
      | Except.error _ => PipelineOutcome.fatal

/-- Python truthiness projection used after the time loop: `None` and the
empty string both fail `if start_time_str:`. -/
def truthyVal : Option String → Option String
  | some s => if s = "" then none else some s
  | none => none

/-- A time value the loop of lines 163-172 can end up selecting and
keeping through the truthiness test: not the `"TBC"` sentinel and not
empty. -/
def usableVal (p : TimePair) : Bool :=
  p.value != "TBC" && p.value != ""

/-- Modelled from the spec, section 4.4 (Time Selector): the claimed
priority policy - first pair whose label matches `"gates open"`
case-insensitively with a non-`"TBC"` value, else the first pair with a
non-`"TBC"` value.  Stated only to compare against the behaviour of the
code, which implements no such label priority. -/
def selectStartTimeSpec (pairs : List TimePair) : Option String :=
  match pairs.find? (fun p => (pyLower p.label == "gates open") && (p.value != "TBC")) with
  | some p => some p.value
  | none => (pairs.find? (fun p => p.value != "TBC")).map TimePair.value

/-- Modelled from the spec, section 4.2 (Field Parser): the claimed
date-fragment sequence with explicitly hidden fragments filtered out.
Stated only to compare against `dateParts`, which performs no filtering. -/
def visibleDateParts (block : EventBlock) : List DateDiv :=
  (dateParts block).filter (fun d => !d.hidden)

/-- The same block with every hidden marker cleared; the script's result
never depends on these markers. -/
def eraseHidden (b : EventBlock) : EventBlock :=
  { b with dateBlock := b.dateBlock.map (List.map (fun d => ⟨d.text, false⟩)) }

/-- Reference date 1 Nov 2024, used by the concrete examples. -/
def dNov : Date := ⟨2024, 11, 1⟩

/-- Reference date 20 Dec 2024, the reference instant of the spec's
rollover example. -/
def dDec : Date := ⟨2024, 12, 20⟩

/-- A concrete generation stamp for the serializer examples. -/
def stamp0 : PyDateTime := ⟨⟨2025, 1, 1⟩, ⟨0, 0⟩, none⟩

/-- A well-formed timed event block. -/
def blockTimed : EventBlock :=
  ⟨some "Big Match", "/events/big-match",
    some [⟨"Sat", false⟩, ⟨"22", false⟩, ⟨"Nov", false⟩],
    [["1:30pm", "Gates open"]]⟩

/-- The event the script scrapes from `blockTimed` at reference `dNov`. -/
def evTimed : ScrapedEvent :=
  ⟨"Big Match", ⟨⟨2024, 11, 22⟩, ⟨13, 30⟩, none⟩, false,
    "1:30pm - Gates open", "https://thegabba.com.au/events/big-match"⟩

/-- A well-formed block whose only time value is the `"TBC"` sentinel. -/
def blockAllDay : EventBlock :=
  ⟨some "Fan Day", "/events/fan-day",
    some [⟨"Sun", false⟩, ⟨"23", false⟩, ⟨"Nov", false⟩],
    [["TBC", "Gates open"]]⟩

/-- The all-day event the script scrapes from `blockAllDay` at `dNov`. -/
def evAllDay : ScrapedEvent :=
  ⟨"Fan Day", ⟨⟨2024, 11, 23⟩, ⟨0, 0⟩, none⟩, true,
    "TBC - Gates open", "https://thegabba.com.au/events/fan-day"⟩

/-- The VEVENT the serializer produces from `evAllDay` at stamp `stamp0`. -/
def entryAllDay : ICalEntry :=
  ⟨"Fan Day", ⟨⟨2024, 11, 23⟩, ⟨0, 0⟩, none⟩, "Australia/Brisbane", none, stamp0,
    gabbaLocation, "TBC - Gates open\n\nMore info: https://thegabba.com.au/events/fan-day",
    "https://thegabba.com.au/events/fan-day",
    "2024-11-23T00:00:00@https://thegabba.com.au/events/fan-day"⟩

/-- All-day event used for the UID example, URL ending in `a`. -/
def uidEvA : ScrapedEvent :=
  ⟨"E", ⟨⟨2024, 11, 23⟩, ⟨0, 0⟩, none⟩, true, "", "https://thegabba.com.au/events/a"⟩

/-- Same start instant as `uidEvA`, different URL. -/
def uidEvB : ScrapedEvent :=
  ⟨"E", ⟨⟨2024, 11, 23⟩, ⟨0, 0⟩, none⟩, true, "", "https://thegabba.com.au/events/b"⟩

/-- The VEVENT the serializer produces from `uidEvA` at `stamp0`. -/
def uidEntryA : ICalEntry :=
  ⟨"E", ⟨⟨2024, 11, 23⟩, ⟨0, 0⟩, none⟩, "Australia/Brisbane", none, stamp0,
    gabbaLocation, "\n\nMore info: https://thegabba.com.au/events/a",
    "https://thegabba.com.au/events/a",
    "2024-11-23T00:00:00@https://thegabba.com.au/events/a"⟩

/-- The VEVENT the serializer produces from `uidEvB` at `stamp0`. -/
def uidEntryB : ICalEntry :=
  ⟨"E", ⟨⟨2024, 11, 23⟩, ⟨0, 0⟩, none⟩, "Australia/Brisbane", none, stamp0,
    gabbaLocation, "\n\nMore info: https://thegabba.com.au/events/b",
    "https://thegabba.com.au/events/b",
    "2024-11-23T00:00:00@https://thegabba.com.au/events/b"⟩

/-- A malformed block: its date sub-block has only two fragments. -/
def badBlock : EventBlock :=
  ⟨some "Broken", "/events/broken",
    some [⟨"Sat", false⟩, ⟨"22", false⟩], []⟩

/-- A block with no title element and no time rows. -/
def blockG4 : EventBlock :=
  ⟨none, "/events/g4",
    some [⟨"Mon", false⟩, ⟨"24", false⟩, ⟨"Nov", false⟩], []⟩

/-- A block with an already-absolute URL and a one-span time row. -/
def blockG5 : EventBlock :=
  ⟨some " Xmas Bash ", "https://example.org/e5",
    some [⟨"Tue", false⟩, ⟨"25", false⟩, ⟨"Nov", false⟩],
    [["bad"], ["7:00pm", "First Ball"]]⟩

/-- Five candidate blocks; the third has only two date fragments. -/
def fiveBlocks : List EventBlock :=
  [blockTimed, blockAllDay, badBlock, blockG4, blockG5]

/-- A block whose date sub-block starts with a hidden `"TBC"`
placeholder `div` followed by three real fragments. -/
def hiddenBlock : EventBlock :=
  ⟨some "Hidden Test", "/events/hidden",
    some [⟨"TBC", true⟩, ⟨"Sat", false⟩, ⟨"15", false⟩, ⟨"Jan", false⟩], []⟩

/-- Time rows in which a non-`"TBC"` pair precedes a non-`"TBC"`
`"Gates open"` pair. -/
def rowsGates : List (List String) :=
  [["1:00pm", "First Ball"], ["12:00pm", "Gates open"]]

/-! Helper lemmas. -/

theorem string_append_data (s t : String) : (s ++ t).data = s.data ++ t.data := by
  cases s; cases t; rfl

theorem string_append_left_cancel (s t u : String) (h : s ++ t = s ++ u) : t = u := by
  cases s with
  | mk a =>
    cases t with
    | mk b =>
      cases u with
      | mk c =>
        have hd : a ++ b = a ++ c := by
          have := congrArg String.data h
          simpa [string_append_data] using this
        exact congrArg String.mk (List.append_cancel_left hd)

theorem chosenStart_eq (rows : List (List String)) :
    chosenStart rows = truthyVal (processTimeRows rows).2 := by
  unfold chosenStart truthyVal
  cases (processTimeRows rows).2 <;> rfl

theorem processTimeRowsAux_fst (rows : List (List String)) :
    ∀ (ls : List String) (st : Option String),
      (processTimeRowsAux (ls, st) rows).1 = ls ++ (rows.filterMap pairOfRow).map fmtPair := by
  induction rows with
  | nil => intro ls st; simp [processTimeRowsAux]
  | cons row rest ih =>
    intro ls st
    cases h : pairOfRow row with
    | none => simp [processTimeRowsAux, h, ih]
    | some p => simp [processTimeRowsAux, h, ih]

theorem processTimeRows_fst (rows : List (List String)) :
    (processTimeRows rows).1 = (rows.filterMap pairOfRow).map fmtPair := by
  simpa using processTimeRowsAux_fst rows [] none

theorem processTimeRowsAux_snd (rows : List (List String)) :
    ∀ (ls : List String) (st : Option String),
      truthyVal (processTimeRowsAux (ls, st) rows).2 =
        match truthyVal st with
        | some s => some s
        | none => ((rows.filterMap pairOfRow).find? usableVal).map TimePair.value := by
  induction rows with
  | nil =>
    intro ls st
    cases st with
    | none => simp [processTimeRowsAux, truthyVal]
    | some s =>
      by_cases hs : s = "" <;> simp [processTimeRowsAux, truthyVal, hs]
  | cons row rest ih =>
    intro ls st
    cases h : pairOfRow row with
    | none =>
      unfold processTimeRowsAux
      rw [h, ih]
      simp [h]
    | some p =>
      unfold processTimeRowsAux
      rw [h, ih]
      by_cases hv : p.value = "TBC"
      · cases st with
        | none => simp [truthyVal, usableVal, pyFalsy, h, hv]
        | some s =>
          by_cases hs : s = "" <;> simp [truthyVal, usableVal, pyFalsy, h, hv, hs]
      · by_cases hv2 : p.value = ""
        · cases st with
          | none => simp [truthyVal, usableVal, pyFalsy, h, hv, hv2]
          | some s =>
            by_cases hs : s = "" <;> simp [truthyVal, usableVal, pyFalsy, h, hv, hv2, hs]
        · cases st with
          | none => simp [truthyVal, usableVal, pyFalsy, h, hv, hv2]
          | some s =>
            by_cases hs : s = "" <;> simp [truthyVal, usableVal, pyFalsy, h, hv, hv2, hs]

theorem scrapeEvent_some_spec (now : Date) (b : EventBlock) (ev : ScrapedEvent)
    (h : scrapeEvent now b = some ev) :
    ev.description = String.intercalate "\n" ((b.timeRows.filterMap pairOfRow).map fmtPair) ∧
    ev.start_datetime.offset = none := by
  have hd := processTimeRows_fst b.timeRows
  unfold scrapeEvent at h
  dsimp only at h
  repeat' split at h
  all_goals try exact Option.noConfusion h
  all_goals cases h
  all_goals exact ⟨congrArg (String.intercalate "\n") hd, rfl⟩

/-! Claim theorems. -/

/-- C1, counterexample.  The claim says that with reference instant
20 Dec 2024 and fragments (Sat, 15, Jan) the resolved year is 2025,
because the candidate is more than 30 days before the reference instant;
the code has no 30-day threshold (only a midnight comparison gated on the
reference month being January), so at a December reference it keeps the
current year and resolves 15 Jan 2024, eleven months in the past. -/
theorem resolveDate_dec_reference_keeps_year :
    resolveDate dDec 15 1 = ⟨2024, 1, 15⟩ ∧ (resolveDate dDec 15 1).year ≠ 2025 := by
  decide

/-- C1, amended.  The resolved date keeps the reference instant's year
whenever the reference month is not January - no matter how far in the
past the candidate lies - and is rebuilt with `year + 1` when the
reference month is January and the candidate is earlier than the
reference day's midnight. -/
theorem resolveDate_rollover_only_in_january :
    (∀ (now : Date) (d m : Nat), now.month ≠ 1 →
      resolveDate now d m = ⟨now.year, m, d⟩) ∧
    (∀ (now : Date) (d m : Nat), now.month = 1 →
      Date.lt ⟨now.year, m, d⟩ ⟨now.year, now.month, now.day⟩ = true →
      resolveDate now d m = ⟨now.year + 1, m, d⟩) := by
  constructor
  · intro now d m h
    unfold resolveDate
    simp [h]
  · intro now d m h1 h2
    unfold resolveDate
    rw [h1] at h2 ⊢
    simp [h2]

/-- C1, witness for the amended claim: a March reference keeps its year,
a January reference rolls an earlier candidate over to the next year. -/
theorem resolveDate_rollover_only_in_january_witness :
    resolveDate ⟨2025, 3, 10⟩ 5 1 = ⟨2025, 1, 5⟩ ∧
    resolveDate ⟨2025, 1, 15⟩ 10 1 = ⟨2026, 1, 10⟩ :=
  ⟨resolveDate_rollover_only_in_january.1 ⟨2025, 3, 10⟩ 5 1 (by decide),
   resolveDate_rollover_only_in_january.2 ⟨2025, 1, 15⟩ 10 1 (by decide) (by decide)⟩

/-- C10.  The year-rollover is applied exactly when the candidate date is
earlier than the reference day's midnight AND the reference instant's
month is January; month and day of the fragment are always kept. -/
theorem resolveDate_rollover_iff (now : Date) (d m : Nat) :
    ((resolveDate now d m).year = now.year + 1 ↔
      (Date.lt ⟨now.year, m, d⟩ ⟨now.year, now.month, now.day⟩ = true ∧ now.month = 1)) ∧
    (resolveDate now d m).month = m ∧ (resolveDate now d m).day = d := by
  unfold resolveDate
  by_cases h2 : now.month = 1
  · rw [h2]
    by_cases h1 : Date.lt ⟨now.year, m, d⟩ ⟨now.year, 1, now.day⟩ = true <;>
      simp [h1, self_eq_add_right]
  · simp [h2, self_eq_add_right]

/-- C2, counterexample.  The claim gives priority to a case-insensitive
"gates open" label; the code does no label matching, so when a
non-"TBC" pair precedes a non-"TBC" "Gates open" pair, the code picks
the earlier pair while the claimed policy picks the gates-open pair. -/
theorem timeSelector_ignores_gates_open_label :
    chosenStart rowsGates = some "1:00pm" ∧
    selectStartTimeSpec (rowsGates.filterMap pairOfRow) = some "12:00pm" ∧
    chosenStart rowsGates ≠ selectStartTimeSpec (rowsGates.filterMap pairOfRow) := by
  decide

/-- C2, amended.  The chosen start time is the first well-formed pair in
document order whose value is neither the `"TBC"` sentinel nor empty; no
label priority is applied; if no such pair exists the event is all-day. -/
theorem chosenStart_first_usable (rows : List (List String)) :
    chosenStart rows = ((rows.filterMap pairOfRow).find? usableVal).map TimePair.value := by
  rw [chosenStart_eq]
  unfold processTimeRows
  rw [processTimeRowsAux_snd]
  simp [truthyVal]

/-- C3, code bug.  The intended behaviour (inline comment, line 225) is
`end = start + 2 hours` for timed events, but line 226 evaluates
`timedelta(hours=2)` while line 4 imports only `datetime` from the
`datetime` module, so serializing any timed event raises `NameError` and
the run aborts; an end instant is never written.  The concrete timed
event below is produced by the scraper itself. -/
theorem create_ical_file_timed_event_name_error :
    scrapeEvent dNov blockTimed = some evTimed ∧
    evTimed.is_all_day = false ∧
    create_ical_file stamp0 [evTimed] =
      Except.error "NameError: name 'timedelta' is not defined" := by
  refine ⟨by decide, by decide, by rfl⟩

/-- C4.  Every VEVENT the serializer actually produces has
`uid = isoformat(start) + "@" + url`; the UID is a pure function of the
event record, and two events with the same start instant but different
URLs receive different UIDs. -/
theorem uid_formula_and_distinct (stamp : PyDateTime) (ev : ScrapedEvent)
    (entry : ICalEntry) (h : serializeEvent stamp ev = Except.ok entry) :
    entry.uid = ev.start_datetime.isoformat ++ "@" ++ ev.url ∧
    ∀ (ev2 : ScrapedEvent) (entry2 : ICalEntry),
      serializeEvent stamp ev2 = Except.ok entry2 →
      ev2.start_datetime = ev.start_datetime →
      ev2.url ≠ ev.url →
      entry2.uid ≠ entry.uid := by
  have huid : ∀ (e : ScrapedEvent) (en : ICalEntry),
      serializeEvent stamp e = Except.ok en →
      en.uid = e.start_datetime.isoformat ++ "@" ++ e.url := by
    intro e en he
    unfold serializeEvent at he
    split at he
    · cases he; rfl
    · exact Except.noConfusion he
  refine ⟨huid ev entry h, ?_⟩
  intro ev2 entry2 h2 hstart hurl heq
  apply hurl
  have e1 := huid ev entry h
  have e2 := huid ev2 entry2 h2
  rw [e1, e2, hstart] at heq
  exact string_append_left_cancel _ _ _ heq

/-- C4, witness: two concrete all-day events with the same start instant
and different URLs; the first UID follows the formula and the two UIDs
differ. -/
theorem uid_formula_and_distinct_witness :
    uidEntryA.uid = uidEvA.start_datetime.isoformat ++ "@" ++ uidEvA.url ∧
    uidEntryB.uid ≠ uidEntryA.uid :=
  ⟨(uid_formula_and_distinct stamp0 uidEvA uidEntryA (by rfl)).1,
   (uid_formula_and_distinct stamp0 uidEvA uidEntryA (by rfl)).2 uidEvB uidEntryB
     (by rfl) (by decide) (by decide)⟩

/-- C5.  A block whose date sub-block yields fewer than three fragments
is dropped; dropping any failed block never disturbs the surrounding
blocks; and on the concrete five-block input whose third block has only
two date fragments, exactly the other four events are emitted. -/
theorem per_event_failure_containment :
    (∀ (now : Date) (b : EventBlock),
      (dateParts b).length < 3 → scrapeEvent now b = none) ∧
    (∀ (now : Date) (pre : List EventBlock) (b : EventBlock) (post : List EventBlock),
      scrapeEvent now b = none →
      scrape_gabba_events now (pre ++ b :: post) =
        scrape_gabba_events now pre ++ scrape_gabba_events now post) ∧
    scrape_gabba_events dNov fiveBlocks =
      scrape_gabba_events dNov [blockTimed, blockAllDay, blockG4, blockG5] ∧
    (scrape_gabba_events dNov fiveBlocks).length = 4 := by
  refine ⟨?_, ?_, by decide, by decide⟩
  · intro now b hlen
    unfold scrapeEvent
    rcases hdp : dateParts b with _ | ⟨d0, _ | ⟨d1, _ | ⟨d2, rest⟩⟩⟩ <;> simp
    rw [hdp] at hlen
    simp at hlen
    omega
  · intro now pre b post h
    simp [scrape_gabba_events, List.filterMap_append, List.filterMap_cons, h]

/-- C5, witness: the malformed block has two date fragments and is
dropped, and removing it splits cleanly around its neighbours. -/
theorem per_event_failure_containment_witness :
    scrapeEvent dNov badBlock = none ∧
    scrape_gabba_events dNov ([blockTimed] ++ badBlock :: [blockG4]) =
      scrape_gabba_events dNov [blockTimed] ++ scrape_gabba_events dNov [blockG4] :=
  ⟨per_event_failure_containment.1 dNov badBlock (by decide),
   per_event_failure_containment.2.1 dNov [blockTimed] badBlock [blockG4]
     (per_event_failure_containment.1 dNov badBlock (by decide))⟩

/-- C6.  When the container rule matches zero elements, the run ends on
the fatal path (non-zero exit) and no calendar document is produced. -/
theorem empty_extraction_fatal (now : Date) (stamp : PyDateTime) :
    runMain now stamp (some []) = PipelineOutcome.fatal ∧
    ∀ (cal : List ICalEntry), runMain now stamp (some []) ≠ PipelineOutcome.success cal := by
  refine ⟨rfl, ?_⟩
  intro cal h
  have hf : runMain now stamp (some []) = PipelineOutcome.fatal := rfl
  rw [h] at hf
  exact PipelineOutcome.noConfusion hf

/-- C7, counterexample.  A normalized event produced by the pipeline
carries no UTC offset at all (the parsed timestamp is naive, not
UTC+10), and the serializer writes the start value unchanged rather than
converted to UTC. -/
theorem naive_start_no_utc_conversion :
    scrapeEvent dNov blockAllDay = some evAllDay ∧
    evAllDay.start_datetime.offset = none ∧
    evAllDay.start_datetime.offset ≠ some 600 ∧
    serializeEvent stamp0 evAllDay = Except.ok entryAllDay ∧
    entryAllDay.dtstart = evAllDay.start_datetime := by
  exact ⟨by decide, rfl, by decide, rfl, rfl⟩

/-- C7, amended.  Every scraped start timestamp is timezone-naive (its
offset slot is empty), and every serialized entry carries the start
wall-clock value unchanged, tagged with the fixed `TZID` parameter
`Australia/Brisbane`; no conversion to UTC is performed. -/
theorem start_naive_tzid_unconverted :
    (∀ (now : Date) (b : EventBlock) (ev : ScrapedEvent),
      scrapeEvent now b = some ev → ev.start_datetime.offset = none) ∧
    (∀ (stamp : PyDateTime) (ev : ScrapedEvent) (entry : ICalEntry),
      serializeEvent stamp ev = Except.ok entry →
      entry.dtstart = ev.start_datetime ∧ entry.dtstartTZID = "Australia/Brisbane") := by
  constructor
  · intro now b ev h
    exact (scrapeEvent_some_spec now b ev h).2
  · intro stamp ev entry h
    unfold serializeEvent at h
    split at h
    · cases h; exact ⟨rfl, rfl⟩
    · exact Except.noConfusion h

/-- C7, witness for the amended claim at a concrete block and entry. -/
theorem start_naive_tzid_unconverted_witness :
    evAllDay.start_datetime.offset = none ∧
    entryAllDay.dtstart = evAllDay.start_datetime ∧
    entryAllDay.dtstartTZID = "Australia/Brisbane" :=
  ⟨start_naive_tzid_unconverted.1 dNov blockAllDay evAllDay (by decide),
   (start_naive_tzid_unconverted.2 stamp0 evAllDay entryAllDay (by rfl)).1,
   (start_naive_tzid_unconverted.2 stamp0 evAllDay entryAllDay (by rfl)).2⟩

/-- C8, counterexample.  On a block whose date sub-block starts with a
hidden `"TBC"` placeholder `div`, the fragment sequence the code uses
still contains the hidden fragment (shifting the real fragments out of
their positions, so the event is dropped); the claimed filtered sequence
differs. -/
theorem hidden_fragment_not_filtered :
    (dateParts hiddenBlock).map DateDiv.text = ["TBC", "Sat", "15", "Jan"] ∧
    (dateParts hiddenBlock).any DateDiv.hidden = true ∧
    visibleDateParts hiddenBlock ≠ dateParts hiddenBlock ∧
    scrapeEvent dDec hiddenBlock = none := by
  decide

/-- C8, amended.  No visibility filtering is performed: the date-fragment
sequence is the full `div` sequence of the date sub-block, hidden
markers included, and the hidden marker never affects the scraped
result - clearing every marker yields the same outcome. -/
theorem hidden_marker_ignored (now : Date) (b : EventBlock) :
    scrapeEvent now (eraseHidden b) = scrapeEvent now b ∧
    dateParts (eraseHidden b) = (dateParts b).map (fun d => ⟨d.text, false⟩) := by
  have hdp : dateParts (eraseHidden b) = (dateParts b).map (fun d => ⟨d.text, false⟩) := by
    cases hb : b.dateBlock <;> simp [dateParts, eraseHidden, hb]
  refine ⟨?_, hdp⟩
  have hti : (eraseHidden b).title = b.title := rfl
  have hh : (eraseHidden b).href = b.href := rfl
  have htr : (eraseHidden b).timeRows = b.timeRows := rfl
  unfold scrapeEvent
  rw [hti, hh, htr, hdp]
  rcases dateParts b with _ | ⟨d0, _ | ⟨d1, _ | ⟨d2, rest⟩⟩⟩ <;> simp

/-- C9.  For every scraped event, the description is the newline join of
one `"value - label"` line per well-formed (two-span) time row, in
exactly the order the rows appear in the block, including `"TBC"` pairs
and pairs not selected as the start time. -/
theorem description_lines_in_order (now : Date) (b : EventBlock) (ev : ScrapedEvent)
    (h : scrapeEvent now b = some ev) :
    ev.description =
      String.intercalate "\n" ((b.timeRows.filterMap pairOfRow).map fmtPair) :=
  (scrapeEvent_some_spec now b ev h).1

/-- C9, witness at a concrete block whose rows include a non-selected
pair. -/
theorem description_lines_in_order_witness :
    evTimed.description =
      String.intercalate "\n" ((blockTimed.timeRows.filterMap pairOfRow).map fmtPair) :=
  description_lines_in_order dNov blockTimed evTimed (by decide)
